import Mathlib

/-!
Shallow embedding of `finality-aleph/src/network/substrate.rs`: the protocol
naming registry (`ProtocolNaming`), the merged network event stream
(`NetworkEventStream::next_event`), and the sender plumbing
(`SubstrateNetworkSender::send`, `SubstrateNetwork::sender`).

Modelling conventions:
* Rust `ProtocolName` (an interned string) is modelled as `String`.
* `HashMap::insert`/`get` is modelled as an association list where an insert
  prepends its pair; lookup takes the first match, so the newest insert wins,
  exactly the overwrite semantics of `HashMap`.
* Peer ids and payload byte vectors are opaque type parameters `P` and `D`.
* The two `futures` streams feeding `next_event` are modelled as lists of
  their items; an empty list is an exhausted stream.  The `tokio::select!`
  race is modelled by an explicit schedule (`List Bool`): when both sources
  have a ready item, the head of the schedule picks the branch (`true` for
  the substrate-event branch) and is consumed; when only one source has an
  item the choice is forced and the schedule is left untouched.
* Calls to `add_peers_to_reserved_set` / `remove_peers_from_reserved_set`
  are side effects on the network service; they are modelled as a log of
  issued `NetCommand`s.  The `Result` each call returns is produced by a
  failure oracle `fail : NetCommand P → Bool`; the code only logs failures,
  so the model additionally records the list of logged (failed) commands.
-/

namespace AlephSubstrate

/-- Name of the network protocol used by Aleph Zero to disseminate validator
authentications (`AUTHENTICATION_PROTOCOL_NAME` in the source). -/
def AUTHENTICATION_PROTOCOL_NAME : String := "/auth/0"

/-- Legacy name of the network protocol used by Aleph Zero to disseminate
validator authentications (`LEGACY_AUTHENTICATION_PROTOCOL_NAME`). -/
def LEGACY_AUTHENTICATION_PROTOCOL_NAME : String := "/aleph/1"

/-- Name of the network protocol used by Aleph Zero to synchronize the block
state (`BLOCK_SYNC_PROTOCOL_NAME`). -/
def BLOCK_SYNC_PROTOCOL_NAME : String := "/sync/0"

/-- The logical protocols.  The enum `Protocol` lives in
`crate::network::gossip`, which is not part of the sources; its two variants
`Authentication` and `BlockSync` are exactly the ones used by `substrate.rs`
and named by the spec. -/
inductive Protocol where
  | Authentication
  | BlockSync
deriving DecidableEq, Repr

/-- Convert protocols to their names and vice versa (struct `ProtocolNaming`).
`protocols_by_name` is the `HashMap<ProtocolName, Protocol>` modelled as an
association list, newest insert first. -/
structure ProtocolNaming where
  authentication_name : String
  authentication_fallback_names : List String
  block_sync_name : String
  protocols_by_name : List (String × Protocol)
deriving Repr

/-- `HashMap::insert` on the association-list model: prepend, so that lookup
(first match) sees the newest binding, as overwriting does. -/
def mapInsert (m : List (String × Protocol)) (k : String) (v : Protocol) :
    List (String × Protocol) :=
  (k, v) :: m

/-- Create a new protocol naming scheme with the given chain prefix
(`ProtocolNaming::new`).  Mirrors the source's insert order: the canonical
authentication name, then each authentication fallback name, then the
canonical block-sync name. -/
def ProtocolNaming.new (pref : String) : ProtocolNaming :=
  let authentication_name : String := pref ++ AUTHENTICATION_PROTOCOL_NAME
  let protocols_by_name := mapInsert [] authentication_name Protocol.Authentication
  let authentication_fallback_names : List String := [LEGACY_AUTHENTICATION_PROTOCOL_NAME]
  let protocols_by_name := authentication_fallback_names.foldl
    (fun m n => mapInsert m n Protocol.Authentication) protocols_by_name
  let block_sync_name : String := pref ++ BLOCK_SYNC_PROTOCOL_NAME
  let protocols_by_name := mapInsert protocols_by_name block_sync_name Protocol.BlockSync
  { authentication_name, authentication_fallback_names, block_sync_name, protocols_by_name }

/-- Returns the canonical name of the protocol (`ProtocolNaming::protocol_name`). -/
def ProtocolNaming.protocol_name (naming : ProtocolNaming) : Protocol → String
  | Protocol.Authentication => naming.authentication_name
  | Protocol.BlockSync => naming.block_sync_name

/-- Returns the fallback names of the protocol
(`ProtocolNaming::fallback_protocol_names`). -/
def ProtocolNaming.fallback_protocol_names (naming : ProtocolNaming) : Protocol → List String
  | Protocol.Authentication => naming.authentication_fallback_names
  | _ => []

/-- Attempts to convert the protocol name to a protocol
(`ProtocolNaming::to_protocol`): `self.protocols_by_name.get(protocol_name)`. -/
def ProtocolNaming.to_protocol (naming : ProtocolNaming) (protocol_name : String) :
    Option Protocol :=
  List.lookup protocol_name naming.protocols_by_name

/-- The logical events yielded to the consensus layer.  The enum `Event` lives
in `crate::network::gossip`, which is not part of the sources; its variants
`StreamOpened(peer, protocol)`, `StreamClosed(peer, protocol)` and
`Messages(peer, Vec<(Protocol, data)>)` are exactly the ones constructed by
`substrate.rs` and described by the spec.  `P` is the peer-id type, `D` the
payload type. -/
inductive Event (P D : Type) where
  | StreamOpened : P → Protocol → Event P D
  | StreamClosed : P → Protocol → Event P D
  | Messages : P → List (Protocol × D) → Event P D
deriving DecidableEq

/-- Raw events of the substrate notification stream (`sc_network::Event`),
modelled at the interface boundary: only the fields `substrate.rs` consumes.
`dht` stands for the `Dht(_)` variant whose payload the code discards. -/
inductive SubstrateEvent (P D : Type) where
  | notificationStreamOpened : P → String → SubstrateEvent P D
  | notificationStreamClosed : P → String → SubstrateEvent P D
  | notificationsReceived : P → List (String × D) → SubstrateEvent P D
  | dht : SubstrateEvent P D
deriving DecidableEq

/-- Events of the block-sync connectivity stream
(`sc_network_common::sync::SyncEvent`). -/
inductive SyncEvent (P : Type) where
  | peerConnected : P → SyncEvent P
  | peerDisconnected : P → SyncEvent P
deriving DecidableEq

/-- A one-element multiaddress wrapping a peer id: the model of
`iter::once(MultiaddressProtocol::P2p(remote.into())).collect()`. -/
structure Multiaddr (P : Type) where
  p2p : P
deriving DecidableEq

/-- Reservation commands issued to the underlying network service.
`addReserved name addr` models `add_peers_to_reserved_set(name, {addr})`;
`removeReserved name peer` models
`remove_peers_from_reserved_set(name, [peer])` (both sets are singletons in
the source). -/
inductive NetCommand (P : Type) where
  | addReserved : String → Multiaddr P → NetCommand P
  | removeReserved : String → P → NetCommand P
deriving DecidableEq

/-- Handling of one substrate notification event by `next_event`'s first
`select!` arm: `some ev` means `return Some(ev)`, `none` means `continue`.
Open/close events yield iff their protocol name resolves; a received batch
always yields a `Messages` event with each entry resolved and unresolvable
entries dropped (`filter_map`); `Dht(_)` is skipped. -/
def handleNotification {P D : Type} (naming : ProtocolNaming) :
    SubstrateEvent P D → Option (Event P D)
  | SubstrateEvent.notificationStreamOpened remote protocol =>
      (naming.to_protocol protocol).map (Event.StreamOpened remote)
  | SubstrateEvent.notificationStreamClosed remote protocol =>
      (naming.to_protocol protocol).map (Event.StreamClosed remote)
  | SubstrateEvent.notificationsReceived remote messages =>
      some (Event.Messages remote (messages.filterMap
        (fun pd => (naming.to_protocol pd.1).map (fun protocol => (protocol, pd.2)))))
  | SubstrateEvent.dht => none

/-- Issue one reservation command against the network service.  The service's
answer comes from the failure oracle `fail`; the command is recorded as
issued either way, and recorded a second time in the log of failures exactly
when the oracle fails it (the code only logs the error and moves on).
Returns `(issued, logged)`. -/
def issueCommand {P : Type} (fail : NetCommand P → Bool) (c : NetCommand P) :
    List (NetCommand P) × List (NetCommand P) :=
  if fail c then ([c], [c]) else ([c], [])

/-- Handling of one sync event by `next_event`'s second `select!` arm: on
`PeerConnected` the peer id is wrapped into a multiaddress and an
`add_peers_to_reserved_set` call is made for the Authentication name and
then, unconditionally, for the BlockSync name; on `PeerDisconnected` the two
`remove_peers_from_reserved_set` calls are made the same way.  Returns the
issued commands and the logged failures, in order. -/
def handleSyncEvent {P : Type} (naming : ProtocolNaming) (fail : NetCommand P → Bool) :
    SyncEvent P → List (NetCommand P) × List (NetCommand P)
  | SyncEvent.peerConnected remote =>
      let multiaddress : Multiaddr P := ⟨remote⟩
      let r1 := issueCommand fail
        (NetCommand.addReserved (naming.protocol_name Protocol.Authentication) multiaddress)
      let r2 := issueCommand fail
        (NetCommand.addReserved (naming.protocol_name Protocol.BlockSync) multiaddress)
      (r1.1 ++ r2.1, r1.2 ++ r2.2)
  | SyncEvent.peerDisconnected remote =>
      let r1 := issueCommand fail
        (NetCommand.removeReserved (naming.protocol_name Protocol.Authentication) remote)
      let r2 := issueCommand fail
        (NetCommand.removeReserved (naming.protocol_name Protocol.BlockSync) remote)
      (r1.1 ++ r2.1, r1.2 ++ r2.2)

/-- Result of one call to `next_event`: the yielded logical event (`none` is
end-of-stream), the unconsumed remainders of the two sources, the
reservation commands issued while the call looped, and the failures logged. -/
structure PollResult (P D : Type) where
  event : Option (Event P D)
  rest : List (SubstrateEvent P D)
  syncRest : List (SyncEvent P)
  issued : List (NetCommand P)
  logged : List (NetCommand P)
deriving DecidableEq

/-- One call to `NetworkEventStream::next_event`.  The two streams are lists;
`sched` resolves the `tokio::select!` race: when both sources have a ready
item, the schedule's head (`true` = substrate branch) is consumed; when only
one has an item that branch is forced (the `Some(event) = ...` pattern of
the other arm cannot match) and the schedule is untouched; when both are
exhausted the `else` arm returns `None`.  Events that the code `continue`s
past are consumed and the loop recurses. -/
def nextEvent {P D : Type} (naming : ProtocolNaming) (fail : NetCommand P → Bool) :
    List Bool → List (SubstrateEvent P D) → List (SyncEvent P) → PollResult P D
  | _, [], [] => ⟨none, [], [], [], []⟩
  | sched, e :: rest, [] =>
      match handleNotification naming e with
      | some ev => ⟨some ev, rest, [], [], []⟩
      | none => nextEvent naming fail sched rest []
  | sched, [], se :: srest =>
      let c := handleSyncEvent naming fail se
      let r := nextEvent naming fail sched [] srest
      ⟨r.event, r.rest, r.syncRest, c.1 ++ r.issued, c.2 ++ r.logged⟩
  | sched, e :: rest, se :: srest =>
      if sched.headD true then
        match handleNotification naming e with
        | some ev => ⟨some ev, rest, se :: srest, [], []⟩
        | none => nextEvent naming fail sched.tail rest (se :: srest)
      else
        let c := handleSyncEvent naming fail se
        let r := nextEvent naming fail sched.tail (e :: rest) srest
        ⟨r.event, r.rest, r.syncRest, c.1 ++ r.issued, c.2 ++ r.logged⟩
termination_by _ evs syncs => evs.length + syncs.length

/-- The sender-side error type (`enum SenderError`). -/
inductive SenderError (P : Type) where
  | CannotCreateSender : P → Protocol → SenderError P
  | LostConnectionToPeer : P → SenderError P
  | LostConnectionToPeerReady : P → SenderError P
deriving DecidableEq

/-- The capability returned by a successful readiness wait
(`NotificationSenderReady` in substrate): pushing a payload may still fail. -/
structure NotificationSenderReady (D : Type) where
  send : D → Except Unit Unit

/-- A `Box<dyn NotificationSenderT>`: awaiting `ready()` either fails (the
error payload is irrelevant to this layer, modelled as `Unit`) or produces a
ready capability. -/
structure NotificationSenderT (D : Type) where
  ready : Except Unit (NotificationSenderReady D)

/-- The per-(peer, protocol) sender handle (struct `SubstrateNetworkSender`). -/
structure SubstrateNetworkSender (P D : Type) where
  notification_sender : NotificationSenderT D
  peer_id : P

/-- `SubstrateNetworkSender::send`: wait for readiness, mapping a failure to
`LostConnectionToPeer(peer_id)` and short-circuiting; then push the payload,
mapping a failure to `LostConnectionToPeerReady(peer_id)`. -/
def SubstrateNetworkSender.send {P D : Type} (s : SubstrateNetworkSender P D) (data : D) :
    Except (SenderError P) Unit :=
  match s.notification_sender.ready with
  | Except.error _ => Except.error (SenderError.LostConnectionToPeer s.peer_id)
  | Except.ok r =>
    match r.send data with
    | Except.error _ => Except.error (SenderError.LostConnectionToPeerReady s.peer_id)
    | Except.ok _ => Except.ok ()

/-- The slice of `sc_network::NetworkService` this layer consumes for sending:
`notification_sender(peer, name)` either fails (no substream / no such
protocol — the service does not distinguish) or yields a notification
sender. -/
structure NetworkService (P D : Type) where
  notification_sender : P → String → Except Unit (NotificationSenderT D)

/-- The network facade (struct `SubstrateNetwork`), restricted to the fields
`sender` reads. -/
structure SubstrateNetwork (P D : Type) where
  network : NetworkService P D
  naming : ProtocolNaming

/-- `SubstrateNetwork::sender`: asks the service for a notification sender
for the canonical name of the protocol, mapping a failure to
`CannotCreateSender(peer_id, protocol)`; on success wraps it with the peer
id.  The Rust function is not `async`, so the embedding is a plain (total,
non-suspending) function. -/
def SubstrateNetwork.sender {P D : Type} (net : SubstrateNetwork P D) (peer_id : P)
    (protocol : Protocol) : Except (SenderError P) (SubstrateNetworkSender P D) :=
  match net.network.notification_sender peer_id (net.naming.protocol_name protocol) with
  | Except.error _ => Except.error (SenderError.CannotCreateSender peer_id protocol)
  | Except.ok ns => Except.ok ⟨ns, peer_id⟩

/-- A sender whose readiness wait fails, for exercising the error paths. -/
def readyFailSender : SubstrateNetworkSender Nat Nat :=
  ⟨⟨Except.error ()⟩, 7⟩

/-- A sender whose readiness wait succeeds but whose push fails. -/
def pushFailSender : SubstrateNetworkSender Nat Nat :=
  ⟨⟨Except.ok ⟨fun _ => Except.error ()⟩⟩, 7⟩

/-- A sender whose readiness wait and push both succeed. -/
def okSender : SubstrateNetworkSender Nat Nat :=
  ⟨⟨Except.ok ⟨fun _ => Except.ok ()⟩⟩, 7⟩

/-- A facade whose service can never provide a send capability. -/
def noSenderNetwork : SubstrateNetwork Nat Nat :=
  ⟨⟨fun _ _ => Except.error ()⟩, ProtocolNaming.new "chain_"⟩

/-- Unfolding of the registry's association list built by `ProtocolNaming.new`:
newest insert first, so the block-sync name, then the legacy authentication
name, then the canonical authentication name. -/
theorem protocols_by_name_new (pref : String) :
    (ProtocolNaming.new pref).protocols_by_name =
      [(pref ++ BLOCK_SYNC_PROTOCOL_NAME, Protocol.BlockSync),
       (LEGACY_AUTHENTICATION_PROTOCOL_NAME, Protocol.Authentication),
       (pref ++ AUTHENTICATION_PROTOCOL_NAME, Protocol.Authentication)] := rfl

/-- Appending distinct suffixes to one string yields distinct strings. -/
theorem ne_of_append_left (p a b : String) (h : a ≠ b) : p ++ a ≠ p ++ b := by
  intro he
  exact h (String.ext (by simpa [String.data_append] using congrArg String.data he))

/-- A string whose (nonempty) suffix ends in a different character than `b`
does is different from `b`, whatever it is prefixed with. -/
theorem append_ne_of_getLast (p a b : String) (hne : a.data ≠ [])
    (h : a.data.getLast? ≠ b.data.getLast?) : p ++ a ≠ b := by
  intro he
  apply h
  have hd : p.data ++ a.data = b.data := by
    simpa [String.data_append] using congrArg String.data he
  calc a.data.getLast? = (p.data ++ a.data).getLast? :=
        (List.getLast?_append_of_ne_nil p.data hne).symm
    _ = b.data.getLast? := by rw [hd]

theorem auth_ne_sync (p : String) :
    p ++ AUTHENTICATION_PROTOCOL_NAME ≠ p ++ BLOCK_SYNC_PROTOCOL_NAME :=
  ne_of_append_left p _ _ (by decide)

theorem auth_ne_legacy (p : String) :
    p ++ AUTHENTICATION_PROTOCOL_NAME ≠ LEGACY_AUTHENTICATION_PROTOCOL_NAME :=
  append_ne_of_getLast p _ _ (by decide) (by decide)

theorem sync_ne_legacy (p : String) :
    p ++ BLOCK_SYNC_PROTOCOL_NAME ≠ LEGACY_AUTHENTICATION_PROTOCOL_NAME :=
  append_ne_of_getLast p _ _ (by decide) (by decide)

/-- Canonical names produced by `ProtocolNaming.new`. -/
theorem protocol_name_new (pref : String) :
    (ProtocolNaming.new pref).protocol_name Protocol.Authentication =
      pref ++ AUTHENTICATION_PROTOCOL_NAME ∧
    (ProtocolNaming.new pref).protocol_name Protocol.BlockSync =
      pref ++ BLOCK_SYNC_PROTOCOL_NAME :=
  ⟨rfl, rfl⟩

/-- C4: for every chain prefix and every protocol `P`, the registry built by
`new` resolves the canonical name of `P` to `P`, and resolves every fallback
name of `P` to `P`. -/
theorem resolve_canonical_and_fallback (pref : String) (P : Protocol) :
    (ProtocolNaming.new pref).to_protocol ((ProtocolNaming.new pref).protocol_name P) =
      some P ∧
    ∀ n ∈ (ProtocolNaming.new pref).fallback_protocol_names P,
      (ProtocolNaming.new pref).to_protocol n = some P := by
  cases P with
  | Authentication =>
    have h1 : ((pref ++ AUTHENTICATION_PROTOCOL_NAME) ==
        (pref ++ BLOCK_SYNC_PROTOCOL_NAME)) = false :=
      beq_eq_false_iff_ne.mpr (auth_ne_sync pref)
    have h2 : ((pref ++ AUTHENTICATION_PROTOCOL_NAME) ==
        LEGACY_AUTHENTICATION_PROTOCOL_NAME) = false :=
      beq_eq_false_iff_ne.mpr (auth_ne_legacy pref)
    have h3 : (LEGACY_AUTHENTICATION_PROTOCOL_NAME ==
        (pref ++ BLOCK_SYNC_PROTOCOL_NAME)) = false :=
      beq_eq_false_iff_ne.mpr (Ne.symm (sync_ne_legacy pref))
    refine ⟨?_, ?_⟩
    · simp [ProtocolNaming.to_protocol, protocols_by_name_new, (protocol_name_new pref).1,
        List.lookup, h1, h2]
    · intro n hn
      have hn' : n = LEGACY_AUTHENTICATION_PROTOCOL_NAME := by
        simpa [ProtocolNaming.new, ProtocolNaming.fallback_protocol_names] using hn
      subst hn'
      simp [ProtocolNaming.to_protocol, protocols_by_name_new, List.lookup, h3]
  | BlockSync =>
    refine ⟨?_, ?_⟩
    · simp [ProtocolNaming.to_protocol, protocols_by_name_new, (protocol_name_new pref).2,
        List.lookup]
    · intro n hn
      simp [ProtocolNaming.new, ProtocolNaming.fallback_protocol_names] at hn

/-- Witness for C4 at the concrete prefix used by the spec's examples. -/
theorem resolve_canonical_and_fallback_witness :
    (ProtocolNaming.new "chain_").to_protocol "/aleph/1" = some Protocol.Authentication :=
  (resolve_canonical_and_fallback "chain_" Protocol.Authentication).2 "/aleph/1" (by decide)

/-- C8: for the registry built with chain prefix `"chain_"`:
`resolve("chain_/auth/0") = Some(Authentication)`,
`resolve("/aleph/1") = Some(Authentication)`,
`resolve("chain_/sync/0") = Some(BlockSync)`, and `resolve` of any other
name is `None` (and, being a total Lean function, it never panics). -/
theorem resolve_chain_prefix_examples :
    (ProtocolNaming.new "chain_").to_protocol "chain_/auth/0" = some Protocol.Authentication ∧
    (ProtocolNaming.new "chain_").to_protocol "/aleph/1" = some Protocol.Authentication ∧
    (ProtocolNaming.new "chain_").to_protocol "chain_/sync/0" = some Protocol.BlockSync ∧
    (ProtocolNaming.new "chain_").to_protocol "anything_else" = none ∧
    ∀ name : String, name ≠ "chain_/auth/0" → name ≠ "/aleph/1" → name ≠ "chain_/sync/0" →
      (ProtocolNaming.new "chain_").to_protocol name = none := by
  refine ⟨by decide, by decide, by decide, by decide, ?_⟩
  intro name hauth hlegacy hsync
  have e1 : ("chain_" : String) ++ BLOCK_SYNC_PROTOCOL_NAME = "chain_/sync/0" := by decide
  have e2 : ("chain_" : String) ++ AUTHENTICATION_PROTOCOL_NAME = "chain_/auth/0" := by decide
  have h1 : (name == ("chain_" : String) ++ BLOCK_SYNC_PROTOCOL_NAME) = false := by
    rw [e1]; exact beq_eq_false_iff_ne.mpr hsync
  have h2 : (name == LEGACY_AUTHENTICATION_PROTOCOL_NAME) = false :=
    beq_eq_false_iff_ne.mpr hlegacy
  have h3 : (name == ("chain_" : String) ++ AUTHENTICATION_PROTOCOL_NAME) = false := by
    rw [e2]; exact beq_eq_false_iff_ne.mpr hauth
  simp [ProtocolNaming.to_protocol, protocols_by_name_new, List.lookup, h1, h2, h3]

/-- Witness for C8's universally quantified clause at a concrete unknown name. -/
theorem resolve_chain_prefix_examples_witness :
    (ProtocolNaming.new "chain_").to_protocol "unknown/proto" = none :=
  resolve_chain_prefix_examples.2.2.2.2 "unknown/proto" (by decide) (by decide) (by decide)

/-- C9: for every chain prefix, `fallback_protocol_names BlockSync` is empty
and `fallback_protocol_names Authentication` is exactly the one-element list
holding the legacy literal `"/aleph/1"`, independent of the prefix. -/
theorem fallback_names_fixed (pref : String) :
    (ProtocolNaming.new pref).fallback_protocol_names Protocol.BlockSync = [] ∧
    (ProtocolNaming.new pref).fallback_protocol_names Protocol.Authentication =
      [LEGACY_AUTHENTICATION_PROTOCOL_NAME] ∧
    LEGACY_AUTHENTICATION_PROTOCOL_NAME = "/aleph/1" :=
  ⟨rfl, rfl, rfl⟩

/-- First projection of `issueCommand`: the command is always recorded as
issued, whatever the oracle answers. -/
theorem issueCommand_fst {P : Type} (fail : NetCommand P → Bool) (c : NetCommand P) :
    (issueCommand fail c).1 = [c] := by
  by_cases h : fail c <;> simp [issueCommand, h]

/-- Second projection of `issueCommand`: exactly the failed commands are
logged. -/
theorem issueCommand_snd {P : Type} (fail : NetCommand P → Bool) (c : NetCommand P) :
    (issueCommand fail c).2 = List.filter fail [c] := by
  by_cases h : fail c <;> simp [issueCommand, h]

/-- C1: a received message batch is turned into a single `Messages` event:
each raw name is resolved through the registry, unresolved entries are
dropped, the relative order of the payloads of the surviving entries is
the order of the resolvable entries in the input, and the stream state is
advanced past the batch.  In particular, with prefix `"chain_"`, the raw
batch `[("chain_/auth/0", b1), ("unknown/proto", b2), ("chain_/sync/0", b3)]`
yields `Messages(peer, [(Authentication, b1), (BlockSync, b3)])`. -/
theorem messages_batch_filtering {P D : Type} (naming : ProtocolNaming)
    (fail : NetCommand P → Bool) (sched : List Bool) (remote peer : P)
    (msgs : List (String × D)) (b1 b2 b3 : D) :
    (nextEvent naming fail sched [SubstrateEvent.notificationsReceived remote msgs] [] =
      ⟨some (Event.Messages remote (msgs.filterMap
        (fun pd => (naming.to_protocol pd.1).map (fun protocol => (protocol, pd.2))))),
       [], [], [], []⟩) ∧
    ((msgs.filterMap
        (fun pd => (naming.to_protocol pd.1).map (fun protocol => (protocol, pd.2)))).map
          Prod.snd =
      (msgs.filter (fun pd => (naming.to_protocol pd.1).isSome)).map Prod.snd) ∧
    (nextEvent (ProtocolNaming.new "chain_") fail sched
      [SubstrateEvent.notificationsReceived peer
        [("chain_/auth/0", b1), ("unknown/proto", b2), ("chain_/sync/0", b3)]] [] =
      ⟨some (Event.Messages peer [(Protocol.Authentication, b1), (Protocol.BlockSync, b3)]),
       [], [], [], []⟩) := by
  refine ⟨by simp [nextEvent, handleNotification], ?_, ?_⟩
  · induction msgs with
    | nil => rfl
    | cons pd tl ih =>
      cases h : naming.to_protocol pd.1 <;>
        simp [List.filterMap_cons, List.filter_cons, h, ih]
  · simp [nextEvent, handleNotification, ProtocolNaming.to_protocol, protocols_by_name_new,
      List.lookup, AUTHENTICATION_PROTOCOL_NAME, BLOCK_SYNC_PROTOCOL_NAME,
      LEGACY_AUTHENTICATION_PROTOCOL_NAME]

/-- C2: the merged stream signals end-of-sequence (`event = none`) only at a
poll step where both underlying sources are simultaneously exhausted: when
both sources are empty the call returns `none` at once, and whenever a call
returns `none` both sources have been fully drained. -/
theorem merged_stream_termination {P D : Type} (naming : ProtocolNaming)
    (fail : NetCommand P → Bool) (sched : List Bool)
    (evs : List (SubstrateEvent P D)) (syncs : List (SyncEvent P)) :
    (nextEvent naming fail sched ([] : List (SubstrateEvent P D)) [] =
      ⟨none, [], [], [], []⟩) ∧
    ((nextEvent naming fail sched evs syncs).event = none →
      (nextEvent naming fail sched evs syncs).rest = [] ∧
      (nextEvent naming fail sched evs syncs).syncRest = []) := by
  refine ⟨by simp [nextEvent], ?_⟩
  induction sched, evs, syncs using nextEvent.induct naming fail <;>
    simp_all [nextEvent, List.headD_eq_head?_getD]

/-- Witness for C2 at a source that still holds a (skipped) item: the
remainders are empty whenever `none` is returned. -/
theorem merged_stream_termination_witness :
    (nextEvent (ProtocolNaming.new "chain_") (fun _ => false) []
      [(SubstrateEvent.dht : SubstrateEvent Nat Nat)] []).rest = [] ∧
    (nextEvent (ProtocolNaming.new "chain_") (fun _ => false) []
      [(SubstrateEvent.dht : SubstrateEvent Nat Nat)] []).syncRest = [] :=
  (merged_stream_termination (ProtocolNaming.new "chain_") (fun _ => false) []
    [SubstrateEvent.dht] []).2 (by simp [nextEvent, handleNotification])

/-- C3: a connect signal issues exactly two reservation-add commands (first
for the Authentication name, then for the BlockSync name) and a disconnect
signal issues exactly two reservation-remove commands, for every failure
oracle — so the second command is issued even when the oracle fails the
first; failures are only logged (the log is exactly the failed subset of the
issued commands); no logical event is yielded for connectivity and polling
continues with the commands prepended to whatever the rest of the poll
issues. -/
theorem reservation_commands_per_connectivity {P D : Type} (naming : ProtocolNaming)
    (fail : NetCommand P → Bool) (remote : P) (sched : List Bool)
    (srest : List (SyncEvent P)) :
    ((handleSyncEvent naming fail (SyncEvent.peerConnected remote)).1 =
      [NetCommand.addReserved (naming.protocol_name Protocol.Authentication) ⟨remote⟩,
       NetCommand.addReserved (naming.protocol_name Protocol.BlockSync) ⟨remote⟩]) ∧
    ((handleSyncEvent naming fail (SyncEvent.peerDisconnected remote)).1 =
      [NetCommand.removeReserved (naming.protocol_name Protocol.Authentication) remote,
       NetCommand.removeReserved (naming.protocol_name Protocol.BlockSync) remote]) ∧
    (∀ se : SyncEvent P,
      (handleSyncEvent naming fail se).2 = (handleSyncEvent naming fail se).1.filter fail) ∧
    (∀ se : SyncEvent P,
      (nextEvent naming fail sched ([] : List (SubstrateEvent P D)) (se :: srest)).event =
        (nextEvent naming fail sched ([] : List (SubstrateEvent P D)) srest).event ∧
      (nextEvent naming fail sched ([] : List (SubstrateEvent P D)) (se :: srest)).issued =
        (handleSyncEvent naming fail se).1 ++
          (nextEvent naming fail sched ([] : List (SubstrateEvent P D)) srest).issued) := by
  refine ⟨?_, ?_, ?_, ?_⟩
  · simp [handleSyncEvent, issueCommand_fst]
  · simp [handleSyncEvent, issueCommand_fst]
  · intro se
    cases se <;>
      simp only [handleSyncEvent, issueCommand_fst, issueCommand_snd] <;>
        rw [← List.filter_append]
  · intro se
    constructor <;> simp [nextEvent]

/-- C7: a substream open (resp. close) event whose raw protocol name resolves
yields `StreamOpened(peer, protocol)` (resp. `StreamClosed`); when the name
does not resolve, no event is yielded and no error is raised — the poll
continues with the remaining items. -/
theorem stream_open_close_resolution {P D : Type} (naming : ProtocolNaming)
    (fail : NetCommand P → Bool) (sched : List Bool) (remote : P) (protocol_name : String)
    (rest : List (SubstrateEvent P D)) :
    (nextEvent naming fail sched
        (SubstrateEvent.notificationStreamOpened remote protocol_name :: rest) [] =
      match naming.to_protocol protocol_name with
      | some protocol => ⟨some (Event.StreamOpened remote protocol), rest, [], [], []⟩
      | none => nextEvent naming fail sched rest []) ∧
    (nextEvent naming fail sched
        (SubstrateEvent.notificationStreamClosed remote protocol_name :: rest) [] =
      match naming.to_protocol protocol_name with
      | some protocol => ⟨some (Event.StreamClosed remote protocol), rest, [], [], []⟩
      | none => nextEvent naming fail sched rest []) := by
  constructor <;>
    cases h : naming.to_protocol protocol_name <;>
      simp [nextEvent, handleNotification, h]

/-- C10: when every entry of a received batch fails to resolve, `next_event`
still yields a `Messages` event, carrying the empty list, rather than
suppressing the batch. -/
theorem all_filtered_batch_yields_empty_messages {P D : Type} (naming : ProtocolNaming)
    (fail : NetCommand P → Bool) (sched : List Bool) (remote : P)
    (msgs : List (String × D)) (h : ∀ pd ∈ msgs, naming.to_protocol pd.1 = none) :
    nextEvent naming fail sched [SubstrateEvent.notificationsReceived remote msgs] [] =
      ⟨some (Event.Messages remote []), [], [], [], []⟩ := by
  have hf : msgs.filterMap
      (fun pd => (naming.to_protocol pd.1).map (fun protocol => (protocol, pd.2))) = [] :=
    List.filterMap_eq_nil_iff.mpr (fun pd hpd => by simp [h pd hpd])
  simp [nextEvent, handleNotification, hf]

/-- Witness for C10: a batch whose single entry has an unknown name yields
`Messages(peer, [])`. -/
theorem all_filtered_batch_yields_empty_messages_witness :
    nextEvent (ProtocolNaming.new "chain_") (fun _ => false) [] (P := Nat) (D := Nat)
      [SubstrateEvent.notificationsReceived 3 [("unknown/proto", 17)]] [] =
      ⟨some (Event.Messages 3 []), [], [], [], []⟩ :=
  all_filtered_batch_yields_empty_messages (ProtocolNaming.new "chain_") (fun _ => false) []
    3 [("unknown/proto", 17)] (by decide)

/-- C5: `send` returns `LostConnectionToPeer(peer)` exactly when the
readiness wait fails, `LostConnectionToPeerReady(peer)` when readiness
succeeds but the push fails, succeeds otherwise, and the two error values
are distinguishable. -/
theorem send_error_taxonomy {P D : Type} (s : SubstrateNetworkSender P D) (data : D) :
    (∀ e, s.notification_sender.ready = Except.error e →
      s.send data = Except.error (SenderError.LostConnectionToPeer s.peer_id)) ∧
    (∀ r e, s.notification_sender.ready = Except.ok r → r.send data = Except.error e →
      s.send data = Except.error (SenderError.LostConnectionToPeerReady s.peer_id)) ∧
    (∀ r, s.notification_sender.ready = Except.ok r → r.send data = Except.ok () →
      s.send data = Except.ok ()) ∧
    SenderError.LostConnectionToPeer s.peer_id ≠
      SenderError.LostConnectionToPeerReady s.peer_id := by
  refine ⟨?_, ?_, ?_, by simp⟩
  · intro e he
    simp [SubstrateNetworkSender.send, he]
  · intro r e hr hs
    simp [SubstrateNetworkSender.send, hr, hs]
  · intro r hr hs
    simp [SubstrateNetworkSender.send, hr, hs]

/-- Witness for C5: the three paths at concrete senders. -/
theorem send_error_taxonomy_witness :
    readyFailSender.send 0 = Except.error (SenderError.LostConnectionToPeer 7) ∧
    pushFailSender.send 0 = Except.error (SenderError.LostConnectionToPeerReady 7) ∧
    okSender.send 0 = Except.ok () :=
  ⟨(send_error_taxonomy readyFailSender 0).1 () rfl,
   (send_error_taxonomy pushFailSender 0).2.1 ⟨fun _ => Except.error ()⟩ () rfl rfl,
   (send_error_taxonomy okSender 0).2.2.1 ⟨fun _ => Except.ok ()⟩ rfl rfl⟩

/-- C6: `sender(peer, protocol)` fails with `CannotCreateSender(peer,
protocol)` exactly when the underlying service cannot provide a send
capability for that peer and the protocol's canonical name, this is the only
error `sender` itself can return, and on success it wraps the capability with
the peer id.  (The Rust `sender` is not `async`; the embedding is a plain
function, reflecting that it cannot suspend.) -/
theorem sender_creation_error {P D : Type} (net : SubstrateNetwork P D) (peer_id : P)
    (protocol : Protocol) :
    (∀ e, net.network.notification_sender peer_id (net.naming.protocol_name protocol) =
        Except.error e →
      net.sender peer_id protocol =
        Except.error (SenderError.CannotCreateSender peer_id protocol)) ∧
    (∀ err, net.sender peer_id protocol = Except.error err →
      err = SenderError.CannotCreateSender peer_id protocol) ∧
    (∀ ns, net.network.notification_sender peer_id (net.naming.protocol_name protocol) =
        Except.ok ns →
      net.sender peer_id protocol = Except.ok ⟨ns, peer_id⟩) := by
  refine ⟨?_, ?_, ?_⟩
  · intro e he
    simp [SubstrateNetwork.sender, he]
  · intro err herr
    cases h : net.network.notification_sender peer_id (net.naming.protocol_name protocol) with
    | error e => simp_all [SubstrateNetwork.sender, h]
    | ok ns => simp_all [SubstrateNetwork.sender, h]
  · intro ns hns
    simp [SubstrateNetwork.sender, hns]

/-- Witness for C6: the facade with no capability fails with
`CannotCreateSender`. -/
theorem sender_creation_error_witness :
    noSenderNetwork.sender 5 Protocol.Authentication =
      Except.error (SenderError.CannotCreateSender 5 Protocol.Authentication) :=
  (sender_creation_error noSenderNetwork 5 Protocol.Authentication).1 () rfl

end AlephSubstrate
